import Mathlib

/-!
Verification of the OER-Free-Energy-GPAW script (`DFT_OER.py`).

The script is a linear orchestration pipeline: it builds atomic structures
(a Ni(111) slab, slab+OH, slab+O, slab+OOH, isolated H2O and H2), applies
constraints, hands each structure to an external optimizer, and prints
energies and bond lengths.  This development embeds the geometric
construction steps (through the semantics of the `ase` library calls the
script makes) and small symbolic models of the script's sequencing,
error propagation and variable environment, and proves the claimed
properties about them.
-/

namespace DFT

noncomputable section

/-- A 3-vector of real coordinates (Ångström), as used by `ase` positions. -/
structure Vec3 where
  x : ℝ
  y : ℝ
  z : ℝ

instance : Add Vec3 := ⟨fun u v => ⟨u.x + v.x, u.y + v.y, u.z + v.z⟩⟩

theorem Vec3.add_def (u v : Vec3) : u + v = ⟨u.x + v.x, u.y + v.y, u.z + v.z⟩ := rfl

/-- One atom: chemical symbol plus cartesian position. -/
structure Atom where
  symbol : String
  pos : Vec3

/-- A unit cell given by its three lattice vectors, as in `ase.Atoms.cell`. -/
structure Cell where
  a1 : Vec3
  a2 : Vec3
  a3 : Vec3

/-- Source: `ase.Atoms`: an ordered list of atoms, a unit cell, and the list of
atom indices fixed by a `FixAtoms` constraint (empty when no constraint
has been set). -/
structure AtomicStructure where
  atoms : List Atom
  cell : Cell
  constraint : List ℕ

/-- Default atom used for out-of-range index reads. -/
def defAtom : Atom := ⟨"X", ⟨0, 0, 0⟩⟩

/-- Source: `s.positions[i]`: the position of atom `i` of structure `s`. -/
def posAt (s : AtomicStructure) (i : ℕ) : Vec3 := (s.atoms.getD i defAtom).pos

/-- The length of the third cell vector along `z`; for every cell in this
script the third vector is `(0, 0, h)`, so this is the cell length along
the vacuum axis. -/
def cellZ (s : AtomicStructure) : ℝ := s.cell.a3.z

/-- The `z` coordinates of the atoms of a structure, in atom order. -/
def zList (s : AtomicStructure) : List ℝ := s.atoms.map (fun a => a.pos.z)

/-- Maximum of a list of reals (`numpy` `.max()`); `0` on the empty list,
matching `ase.Atoms.center`, which uses `0` when there are no atoms. -/
def zmaxL : List ℝ → ℝ
  | [] => 0
  | [x] => x
  | x :: y :: xs => max x (zmaxL (y :: xs))

/-- Minimum of a list of reals (`numpy` `.min()`); `0` on the empty list. -/
def zminL : List ℝ → ℝ
  | [] => 0
  | [x] => x
  | x :: y :: xs => min x (zminL (y :: xs))

/-- The in-plane fractional offset of layer `l` (counted from the bottom)
of an fcc(111) slab of `n3` layers, following the ABC stacking assignment
of `ase.build.fcc111` (the top layer gets offset `0`, the layer below it
`1/3`, the one below that `2/3`, cyclically). -/
def fcc111Offset (n3 l : ℕ) : ℝ :=
  match (n3 - 1 - l) % 3 with
  | 0 => 0
  | 1 => 1 / 3
  | _ => 2 / 3

/-- Source: `ase.build.fcc111(symbol, a=a, size=(n1,n2,n3))` with the defaults the
script uses (`vacuum=None`, `orthogonal=False`, `periodic=False`),
specialised to nickel.  Atoms are generated layer by layer from the bottom
(`z = l * a/sqrt 3`), then by the first and second in-plane indices; the
surface lattice vectors have length `a/sqrt 2` at 60°, and the third cell
vector is `(0, 0, n3 * a/sqrt 3)`.  No constraint is set. -/
def fcc111Ni (a : ℝ) (n1 n2 n3 : ℕ) : AtomicStructure :=
  { atoms :=
      (List.range n3).flatMap (fun l =>
        (List.range n1).flatMap (fun i =>
          (List.range n2).map (fun j =>
            { symbol := "Ni"
              pos :=
                { x := a * Real.sqrt 2 / 2 *
                        (((i : ℝ) + fcc111Offset n3 l) + ((j : ℝ) + fcc111Offset n3 l) / 2)
                  y := a * Real.sqrt 2 / 2 * (Real.sqrt 3 / 2) * ((j : ℝ) + fcc111Offset n3 l)
                  z := a / Real.sqrt 3 * (l : ℝ) } })))
    cell :=
      { a1 := ⟨a * Real.sqrt 2 / 2 * (n1 : ℝ), 0, 0⟩
        a2 := ⟨a * Real.sqrt 2 / 2 * (n2 : ℝ) / 2,
               a * Real.sqrt 2 / 2 * (Real.sqrt 3 / 2) * (n2 : ℝ), 0⟩
        a3 := ⟨0, 0, a / Real.sqrt 3 * (n3 : ℝ)⟩ }
    constraint := [] }

/-- Source: `ase.Atoms.translate(v)`: displace every atom by `v`. -/
def translate (s : AtomicStructure) (v : Vec3) : AtomicStructure :=
  { s with atoms := s.atoms.map (fun a => { a with pos := a.pos + v }) }

/-- Source: `Atoms.__add__` (the `slab + molecule` merges in the script): the
adsorbate's atoms are appended after the slab's atoms; cell and
constraint are taken from the left operand. -/
def addAtoms (s m : AtomicStructure) : AtomicStructure :=
  { s with atoms := s.atoms ++ m.atoms }

/-- Source: `ase.Atoms.set_cell(c)` without `scale_atoms` (the default): replaces
the cell, leaves positions unchanged. -/
def setCell (s : AtomicStructure) (c : Cell) : AtomicStructure :=
  { s with cell := c }

/-- Source: `ase.Atoms.set_constraint(FixAtoms(indices=l))`. -/
def setConstraint (s : AtomicStructure) (l : List ℕ) : AtomicStructure :=
  { s with constraint := l }

/-- Source: `ase.Atoms.center(vacuum=V)` along the third (vacuum) axis.  The call
sets the cell length along that axis to the `z`-extent of the atoms plus
`2*V` and shifts the atoms so the lowest one sits at height `V` (leaving
exactly `V` of empty space on each side).  The script's call also centers
the two in-plane axes, which no property below concerns; for every
structure in the script the third cell vector is orthogonal to the surface
plane, so the third-axis effect takes this closed form. -/
def centerVac (V : ℝ) (s : AtomicStructure) : AtomicStructure :=
  { atoms := s.atoms.map (fun a =>
      { a with pos := { a.pos with z := a.pos.z + (V - zminL (zList s)) } })
    cell := { s.cell with a3 := ⟨0, 0, zmaxL (zList s) - zminL (zList s) + 2 * V⟩ }
    constraint := s.constraint }

/- ### The structures built by the script -/

/-- Source: `lattice_constant_Ni = 3.52` (line 28). -/
def lattice_constant_Ni : ℝ := 3.52

/-- Source: `slab = fcc111("Ni", a=lattice_constant_Ni, size=(2,2,2))` (line 29),
before the centering on line 30. -/
def slab_built : AtomicStructure := fcc111Ni lattice_constant_Ni 2 2 2

/-- The indices fixed by every `FixAtoms` call in the script
(lines 38, 77, 113, 148). -/
def fixedIndices : List ℕ := [0, 1, 2, 3, 5, 6, 7]

/-- The bare slab as handed to the optimizer: centered with 2.0 Å vacuum
(line 30) and constrained (lines 38–39). -/
def slab : AtomicStructure := setConstraint (centerVac 2 slab_built) fixedIndices

/-- Source: `oh_molecule = Atoms('OH', positions=[(0,0,0), (0,-0.763,0.596)])` (line 67). -/
def oh_molecule : AtomicStructure :=
  { atoms := [⟨"O", ⟨0, 0, 0⟩⟩, ⟨"H", ⟨0, -0.763, 0.596⟩⟩]
    cell := ⟨⟨0, 0, 0⟩, ⟨0, 0, 0⟩, ⟨0, 0, 0⟩⟩
    constraint := [] }

/-- Source: `slabNi = fcc111("Ni", a=lattice_constant_Ni, size=(2,2,2))` in the OH
block (line 68). -/
def slabNi : AtomicStructure := fcc111Ni lattice_constant_Ni 2 2 2

/-- Source: `slabNi` as rebuilt in the O block (line 106). -/
def slabNi_O : AtomicStructure := fcc111Ni lattice_constant_Ni 2 2 2

/-- Source: `slabNi` as rebuilt in the OOH block (line 141). -/
def slabNi_OOH : AtomicStructure := fcc111Ni lattice_constant_Ni 2 2 2

/-- Source: `p = slabNi.positions[4]` (lines 71, 107, 142). -/
def pRef : Vec3 := posAt slabNi 4

/-- Source: `oh_molecule.translate(p + (0, 0, 1.5))` (line 72). -/
def oh_translated : AtomicStructure := translate oh_molecule (pRef + ⟨0, 0, 1.5⟩)

/-- Source: `slabOH = slabNi + oh_molecule` (line 73), before centering. -/
def slabOH_merged : AtomicStructure := addAtoms slabNi oh_translated

/-- Source: `slabOH` as handed to the optimizer: centered (line 74) and
constrained (lines 77–78). -/
def slabOH : AtomicStructure := setConstraint (centerVac 2 slabOH_merged) fixedIndices

/-- Source: `o_molecule = Atoms('O', positions=[(0, 0, 0)])` (line 105). -/
def o_molecule : AtomicStructure :=
  { atoms := [⟨"O", ⟨0, 0, 0⟩⟩]
    cell := ⟨⟨0, 0, 0⟩, ⟨0, 0, 0⟩, ⟨0, 0, 0⟩⟩
    constraint := [] }

/-- Source: `o_molecule.translate(p + (0, 0, 1.5))` (line 108). -/
def o_translated : AtomicStructure := translate o_molecule (pRef + ⟨0, 0, 1.5⟩)

/-- Source: `slabO = slabNi + o_molecule` (line 109), before centering. -/
def slabO_merged : AtomicStructure := addAtoms slabNi_O o_translated

/-- Source: `slabO` as handed to the optimizer (lines 110, 113–114). -/
def slabO : AtomicStructure := setConstraint (centerVac 2 slabO_merged) fixedIndices

/-- Source: `ooh_molecule = Atoms('OOH', positions=[(0,0,0), (0,0,1.4), (0,-0.763,2.0)])`
(line 140). -/
def ooh_molecule : AtomicStructure :=
  { atoms := [⟨"O", ⟨0, 0, 0⟩⟩, ⟨"O", ⟨0, 0, 1.4⟩⟩, ⟨"H", ⟨0, -0.763, 2.0⟩⟩]
    cell := ⟨⟨0, 0, 0⟩, ⟨0, 0, 0⟩, ⟨0, 0, 0⟩⟩
    constraint := [] }

/-- Source: `ooh_molecule.translate(p + (0, 0, 1.5))` (line 143). -/
def ooh_translated : AtomicStructure := translate ooh_molecule (pRef + ⟨0, 0, 1.5⟩)

/-- Source: `slabOOH = slabNi + ooh_molecule` (line 144), before centering. -/
def slabOOH_merged : AtomicStructure := addAtoms slabNi_OOH ooh_translated

/-- Source: `slabOOH` as handed to the optimizer (lines 145, 148–149). -/
def slabOOH : AtomicStructure := setConstraint (centerVac 2 slabOOH_merged) fixedIndices

/-- Source: `molecule("H2O")` (line 177): the `ase` g2-database water geometry. -/
def h2o_g2 : AtomicStructure :=
  { atoms := [⟨"O", ⟨0, 0, 0.119262⟩⟩,
              ⟨"H", ⟨0, 0.763239, -0.477047⟩⟩,
              ⟨"H", ⟨0, -0.763239, -0.477047⟩⟩]
    cell := ⟨⟨0, 0, 0⟩, ⟨0, 0, 0⟩, ⟨0, 0, 0⟩⟩
    constraint := [] }

/-- The H2O structure after `set_cell(slab.get_cell())` (line 178),
before the centering on line 179.  Relaxation does not change the cell,
so `slab.get_cell()` is the cell produced by the centering on line 30. -/
def h2o_withSlabCell : AtomicStructure := setCell h2o_g2 slab.cell

/-- Source: `h2o_molecule` as handed to the optimizer (line 179). -/
def h2o_molecule : AtomicStructure := centerVac 2 h2o_withSlabCell

/-- Source: `molecule("H2")` (line 190): the `ase` g2-database hydrogen geometry. -/
def h2_g2 : AtomicStructure :=
  { atoms := [⟨"H", ⟨0, 0, 0.368583⟩⟩, ⟨"H", ⟨0, 0, -0.368583⟩⟩]
    cell := ⟨⟨0, 0, 0⟩, ⟨0, 0, 0⟩, ⟨0, 0, 0⟩⟩
    constraint := [] }

/-- The H2 structure after `set_cell(slab.get_cell())` (line 191). -/
def h2_withSlabCell : AtomicStructure := setCell h2_g2 slab.cell

/-- Source: `h2_molecule` as handed to the optimizer (line 192). -/
def h2_molecule : AtomicStructure := centerVac 2 h2_withSlabCell

/- ### Model of the experiment sequencing (the six optimizer runs) -/

/-- One optimizer invocation: the trajectory file it writes and the
structure handed to it. -/
structure RunCall where
  traj : String
  input : AtomicStructure

/-- The effect of a `QuasiNewton(...).run(fmax=0.05)` call given an
oracle's relaxed positions: the relaxation updates atomic positions in
place; it does not touch the unit cell or the constraint. -/
def applyOpt (s : AtomicStructure) (newpos : List Vec3) : AtomicStructure :=
  { s with atoms := (s.atoms.zip newpos).map (fun q => { q.1 with pos := q.2 }) }

/-- The sequence of optimizer invocations the script performs, given an
oracle `opt` supplying the relaxed positions of each run.  The bare-slab
run comes first (line 48) and its relaxed object is the `slab` whose cell
the H2O and H2 blocks read (`slab.get_cell()`, lines 178 and 191); the
OH, O and OOH blocks construct their structures afresh. -/
def scriptTrace (opt : AtomicStructure → List Vec3) : List RunCall :=
  let slabRelaxed := applyOpt slab (opt slab)
  [⟨"Ni.traj", slab⟩,
   ⟨"OH_Ni.traj", slabOH⟩,
   ⟨"O_Ni.traj", slabO⟩,
   ⟨"OOH_Ni.traj", slabOOH⟩,
   ⟨"H2O.traj", centerVac 2 (setCell h2o_g2 slabRelaxed.cell)⟩,
   ⟨"H2.traj", centerVac 2 (setCell h2_g2 slabRelaxed.cell)⟩]

/- ### Model of failure propagation -/

/-- Default pair for out-of-range reads in the failure model. -/
def pairDefault : String × AtomicStructure :=
  ("", ⟨[], ⟨⟨0, 0, 0⟩, ⟨0, 0, 0⟩, ⟨0, 0, 0⟩⟩, []⟩)

/-- The six runs in script order: trajectory filename and input structure
(lines 46–48, 84–86, 119–121, 154–156, 181–183, 194–196). -/
def scriptInputs : List (String × AtomicStructure) :=
  [("Ni.traj", slab), ("OH_Ni.traj", slabOH), ("O_Ni.traj", slabO),
   ("OOH_Ni.traj", slabOOH), ("H2O.traj", h2o_molecule), ("H2.traj", h2_molecule)]

/-- Runs the calculation blocks in order against a fallible optimizer
oracle (which may raise, e.g. on SCF divergence or non-convergence).
Returns the trajectory names of the runs that were started and the final
outcome.  The script has no `try`/`except`, so a raised error ends the
run: no later block is started, nothing is retried, and the error is
returned as is. -/
def runSeq (opt : AtomicStructure → Except String (List Vec3 × ℝ)) :
    List (String × AtomicStructure) → List String × Except String (List ℝ)
  | [] => ([], Except.ok [])
  | q :: rest =>
    match opt q.2 with
    | Except.error e => ([q.1], Except.error e)
    | Except.ok r =>
      let tail := runSeq opt rest
      (q.1 :: tail.1, tail.2.map (fun es => r.2 :: es))

/-- A concrete fallible oracle that diverges exactly on the 10-atom
structure (the slab+OH run) and succeeds elsewhere. -/
def failingOracle (s : AtomicStructure) : Except String (List Vec3 × ℝ) :=
  if s.atoms.length = 10 then Except.error "optimizer diverged"
  else Except.ok ([], 0)

/- ### Model of the script's energy variables and printed lines -/

/-- Symbolic tag for "the potential energy returned by run X": the
energies of the six optimized structures, kept abstract. -/
inductive EnergyTag where
  | slabE | slabOHE | slabOE | slabOOHE | h2oE | h2E
deriving DecidableEq

/-- Python assignment `x = v` on a variable environment: the old binding
of `x`, if any, is discarded. -/
def setVar (env : List (String × EnergyTag)) (x : String) (v : EnergyTag) :
    List (String × EnergyTag) :=
  (x, v) :: env.filter (fun p => p.1 ≠ x)

/-- Reading variable `x` from the environment. -/
def getVar (env : List (String × EnergyTag)) (x : String) : Option EnergyTag :=
  (env.find? (fun p => p.1 = x)).map Prod.snd

/-- The statements of the script that touch the energy variables:
assignments from `get_potential_energy()` and the `print` lines that
report an energy (label, variable read). -/
inductive Stmt where
  | assign (x : String) (v : EnergyTag)
  | printVar (label : String) (x : String)

/-- Executes statements left to right, returning the final environment
and the printed (label, value) lines in order. -/
def execStmts : List Stmt → List (String × EnergyTag) →
    List (String × EnergyTag) × List (String × Option EnergyTag)
  | [], env => (env, [])
  | Stmt.assign x v :: rest, env => execStmts rest (setVar env x v)
  | Stmt.printVar lab x :: rest, env =>
    let tail := execStmts rest env
    (tail.1, (lab, getVar env x) :: tail.2)

/-- The energy assignments and energy prints of the script, in source
order (lines 52–53, 90–91, 125–126, 160–161, 185–186, 198–199).  Note
line 160 assigns the OOH energy to the variable `e_slabO`. -/
def energyStmts : List Stmt :=
  [Stmt.assign "e_slab" EnergyTag.slabE,
   Stmt.printVar "Ni(111) energy: " "e_slab",
   Stmt.assign "e_slabOH" EnergyTag.slabOHE,
   Stmt.printVar "OH on Ni(111) energy: " "e_slabOH",
   Stmt.assign "e_slabO" EnergyTag.slabOE,
   Stmt.printVar "O on Ni(111) energy: " "e_slabO",
   Stmt.assign "e_slabO" EnergyTag.slabOOHE,
   Stmt.printVar "OOH on Ni(111) energy: " "e_slabO",
   Stmt.assign "e_h2o" EnergyTag.h2oE,
   Stmt.printVar "H2O energy: " "e_h2o",
   Stmt.assign "e_h2" EnergyTag.h2E,
   Stmt.printVar "H2 energy: " "e_h2"]

end

/-! ## Helper lemmas -/

theorem sqrt3_pos : 0 < Real.sqrt 3 := Real.sqrt_pos.mpr (by norm_num)

theorem sqrt3_lt_two : Real.sqrt 3 < 2 := by
  nlinarith [Real.sq_sqrt (show (0:ℝ) ≤ 3 by norm_num), Real.sqrt_nonneg 3]

/-- The interlayer spacing of the Ni(111) slab is nonnegative. -/
theorem dNi_nonneg : 0 ≤ lattice_constant_Ni / Real.sqrt 3 := by
  unfold lattice_constant_Ni
  positivity

/-- The interlayer spacing of the Ni(111) slab exceeds the `z`-extent of
the g2 water molecule. -/
theorem dNi_big : (0.596309 : ℝ) < lattice_constant_Ni / Real.sqrt 3 := by
  unfold lattice_constant_Ni
  rw [lt_div_iff₀ sqrt3_pos]
  nlinarith [sqrt3_lt_two, sqrt3_pos]

/-- The highest `z` coordinate of the freshly built two-layer slab is the
interlayer spacing `a / sqrt 3`. -/
theorem zmax_slab_built : zmaxL (zList slab_built) = lattice_constant_Ni / Real.sqrt 3 := by
  have hd := dNi_nonneg
  show zmaxL
      [lattice_constant_Ni / Real.sqrt 3 * ((0 : ℕ) : ℝ),
       lattice_constant_Ni / Real.sqrt 3 * ((0 : ℕ) : ℝ),
       lattice_constant_Ni / Real.sqrt 3 * ((0 : ℕ) : ℝ),
       lattice_constant_Ni / Real.sqrt 3 * ((0 : ℕ) : ℝ),
       lattice_constant_Ni / Real.sqrt 3 * ((1 : ℕ) : ℝ),
       lattice_constant_Ni / Real.sqrt 3 * ((1 : ℕ) : ℝ),
       lattice_constant_Ni / Real.sqrt 3 * ((1 : ℕ) : ℝ),
       lattice_constant_Ni / Real.sqrt 3 * ((1 : ℕ) : ℝ)] = lattice_constant_Ni / Real.sqrt 3
  simp only [Nat.cast_zero, Nat.cast_one, mul_zero, mul_one, zmaxL, max_self]
  simp [max_eq_right hd]

/-- The lowest `z` coordinate of the freshly built slab is `0`. -/
theorem zmin_slab_built : zminL (zList slab_built) = 0 := by
  have hd := dNi_nonneg
  show zminL
      [lattice_constant_Ni / Real.sqrt 3 * ((0 : ℕ) : ℝ),
       lattice_constant_Ni / Real.sqrt 3 * ((0 : ℕ) : ℝ),
       lattice_constant_Ni / Real.sqrt 3 * ((0 : ℕ) : ℝ),
       lattice_constant_Ni / Real.sqrt 3 * ((0 : ℕ) : ℝ),
       lattice_constant_Ni / Real.sqrt 3 * ((1 : ℕ) : ℝ),
       lattice_constant_Ni / Real.sqrt 3 * ((1 : ℕ) : ℝ),
       lattice_constant_Ni / Real.sqrt 3 * ((1 : ℕ) : ℝ),
       lattice_constant_Ni / Real.sqrt 3 * ((1 : ℕ) : ℝ)] = 0
  simp only [Nat.cast_zero, Nat.cast_one, mul_zero, mul_one, zminL, min_self]
  simp [min_eq_left hd]

theorem le_zmaxL_of_mem : ∀ (l : List ℝ) (x : ℝ), x ∈ l → x ≤ zmaxL l
  | [], x, h => absurd h (List.not_mem_nil x)
  | [y], x, h => by
      have hx : x = y := by simpa using h
      simp [zmaxL, hx]
  | y :: z :: zs, x, h => by
      rcases List.mem_cons.mp h with h1 | h2
      · exact h1 ▸ le_max_left _ _
      · exact le_trans (le_zmaxL_of_mem (z :: zs) x h2) (le_max_right _ _)

theorem zminL_le_of_mem : ∀ (l : List ℝ) (x : ℝ), x ∈ l → zminL l ≤ x
  | [], x, h => absurd h (List.not_mem_nil x)
  | [y], x, h => by
      have hx : x = y := by simpa using h
      simp [zminL, hx]
  | y :: z :: zs, x, h => by
      rcases List.mem_cons.mp h with h1 | h2
      · exact h1 ▸ min_le_left _ _
      · exact le_trans (min_le_right _ _) (zminL_le_of_mem (z :: zs) x h2)

/-- Merging an adsorbate into an 8-atom structure appends its atoms. -/
theorem addAtoms_take_drop (s m : AtomicStructure) (h : s.atoms.length = 8) :
    (addAtoms s m).atoms.length = 8 + m.atoms.length ∧
    (addAtoms s m).atoms.take 8 = s.atoms ∧
    (addAtoms s m).atoms.drop 8 = m.atoms := by
  refine ⟨?_, ?_, ?_⟩
  · simp [addAtoms, h]
  · show (s.atoms ++ m.atoms).take 8 = s.atoms
    rw [← h, List.take_left]
  · show (s.atoms ++ m.atoms).drop 8 = m.atoms
    rw [← h, List.drop_left]

/-- Sequential execution with a fallible optimizer stops at the first
failing run, starting each earlier run exactly once, and returns that
run's error unchanged. -/
theorem runSeq_stops_at_first_error
    (opt : AtomicStructure → Except String (List Vec3 × ℝ)) (e : String) :
    ∀ (l : List (String × AtomicStructure)) (i : ℕ),
      i < l.length →
      (∀ j, j < i → ∃ v, opt (l.getD j pairDefault).2 = Except.ok v) →
      opt (l.getD i pairDefault).2 = Except.error e →
      runSeq opt l = ((l.map Prod.fst).take (i + 1), Except.error e)
  | [], i, hi, _, _ => absurd hi (by simp)
  | q :: rest, 0, _, _, herr => by
      simp only [List.getD_cons_zero] at herr
      simp [runSeq, herr]
  | q :: rest, i + 1, hi, hok, herr => by
      obtain ⟨v, hv⟩ := hok 0 (Nat.succ_pos i)
      simp only [List.getD_cons_zero] at hv
      have ih := runSeq_stops_at_first_error opt e rest i
        (by simpa using hi)
        (fun j hj => by
          have := hok (j + 1) (Nat.succ_lt_succ hj)
          simpa using this)
        (by simpa using herr)
      simp [runSeq, hv, ih, Except.map]

/-! ## Claim theorems -/

/-- C1: adding an adsorbate of `N` atoms to the 8-atom Ni(111) slab gives
a merged structure of exactly `8 + N` atoms, with the 8 slab atoms kept in
their original relative order at indices 0–7 and the adsorbate atoms
appended after them (the first adsorbate atom lands at index 8); in
particular slab+OH has 10 atoms, slab+O has 9 and slab+OOH has 11. -/
theorem merge_appends_adsorbate :
    (∀ m : AtomicStructure,
      (addAtoms slabNi m).atoms.length = 8 + m.atoms.length ∧
      (addAtoms slabNi m).atoms.take 8 = slabNi.atoms ∧
      (addAtoms slabNi m).atoms.drop 8 = m.atoms) ∧
    slabOH_merged.atoms.length = 10 ∧
    slabOH_merged.atoms.take 8 = slabNi.atoms ∧
    slabOH_merged.atoms.drop 8 = oh_translated.atoms ∧
    slabO_merged.atoms.length = 9 ∧
    slabO_merged.atoms.take 8 = slabNi_O.atoms ∧
    slabO_merged.atoms.drop 8 = o_translated.atoms ∧
    slabOOH_merged.atoms.length = 11 ∧
    slabOOH_merged.atoms.take 8 = slabNi_OOH.atoms ∧
    slabOOH_merged.atoms.drop 8 = ooh_translated.atoms := by
  have h8 : slabNi.atoms.length = 8 := rfl
  have h8O : slabNi_O.atoms.length = 8 := rfl
  have h8OOH : slabNi_OOH.atoms.length = 8 := rfl
  have hOH := addAtoms_take_drop slabNi oh_translated h8
  have hO := addAtoms_take_drop slabNi_O o_translated h8O
  have hOOH := addAtoms_take_drop slabNi_OOH ooh_translated h8OOH
  exact ⟨fun m => addAtoms_take_drop slabNi m h8, hOH.1, hOH.2.1, hOH.2.2,
         hO.1, hO.2.1, hO.2.2, hOOH.1, hOOH.2.1, hOOH.2.2⟩

/-- C2: the bare slab built with lattice constant 3.52, size (2,2,2) and
2.0 Å of vacuum has exactly 8 atoms (both as built and as centered), and
the cell length along the vacuum axis equals the bulk `z`-extent of the
atoms plus `2 * 2.0`; concretely it is `3.52 / sqrt 3 + 4`. -/
theorem bare_slab_eight_atoms_vacuum_cell :
    slab_built.atoms.length = 8 ∧
    slab.atoms.length = 8 ∧
    cellZ slab = (zmaxL (zList slab_built) - zminL (zList slab_built)) + 2 * 2 ∧
    cellZ slab = lattice_constant_Ni / Real.sqrt 3 + 4 := by
  refine ⟨rfl, rfl, rfl, ?_⟩
  show zmaxL (zList slab_built) - zminL (zList slab_built) + 2 * 2 = _
  rw [zmax_slab_built, zmin_slab_built]
  ring

/-- C3: in each of the three adsorbate runs the adsorbate is translated,
before centering, so that its reference atom — the atom at the
adsorbate's local origin, which becomes index 8 of the merged
structure — sits exactly at the position of slab atom 4 offset by
`(0, 0, 1.5)` Å, i.e. directly above that atom at vertical offset 1.5 Å. -/
theorem adsorbate_placed_above_atom4 :
    posAt slabOH_merged 8 = posAt slabNi 4 + ⟨0, 0, 1.5⟩ ∧
    posAt slabO_merged 8 = posAt slabNi_O 4 + ⟨0, 0, 1.5⟩ ∧
    posAt slabOOH_merged 8 = posAt slabNi_OOH 4 + ⟨0, 0, 1.5⟩ ∧
    (posAt slabOH_merged 8).x = (posAt slabNi 4).x ∧
    (posAt slabOH_merged 8).y = (posAt slabNi 4).y ∧
    (posAt slabOH_merged 8).z = (posAt slabNi 4).z + 1.5 ∧
    (oh_molecule.atoms.getD 0 defAtom).pos = ⟨0, 0, 0⟩ ∧
    (o_molecule.atoms.getD 0 defAtom).pos = ⟨0, 0, 0⟩ ∧
    (ooh_molecule.atoms.getD 0 defAtom).pos = ⟨0, 0, 0⟩ := by
  have hOH : posAt slabOH_merged 8 = (⟨0, 0, 0⟩ : Vec3) + (pRef + ⟨0, 0, 1.5⟩) := rfl
  have hO : posAt slabO_merged 8 = (⟨0, 0, 0⟩ : Vec3) + (pRef + ⟨0, 0, 1.5⟩) := rfl
  have hOOH : posAt slabOOH_merged 8 = (⟨0, 0, 0⟩ : Vec3) + (pRef + ⟨0, 0, 1.5⟩) := rfl
  have hp : posAt slabNi 4 = pRef := rfl
  have hpO : posAt slabNi_O 4 = pRef := rfl
  have hpOOH : posAt slabNi_OOH 4 = pRef := rfl
  refine ⟨?_, ?_, ?_, ?_, ?_, ?_, rfl, rfl, rfl⟩ <;>
    simp [hOH, hO, hOOH, hp, hpO, hpOOH, Vec3.add_def]

/-- C4 (counterexample): vacuum centering does NOT always increase the
cell extent along the non-periodic axis.  For the H2O structure — whose
cell the script first sets to the already vacuum-padded slab cell — the
`center(vacuum=2.0)` call on line 179 strictly shrinks the cell length
along that axis. -/
theorem centering_shrinks_h2o_cell : cellZ h2o_molecule < cellZ h2o_withSlabCell := by
  have h1 : cellZ h2o_withSlabCell =
      zmaxL (zList slab_built) - zminL (zList slab_built) + 2 * 2 := rfl
  have h2 : cellZ h2o_molecule =
      zmaxL (zList h2o_withSlabCell) - zminL (zList h2o_withSlabCell) + 2 * 2 := rfl
  have h3 : zList h2o_withSlabCell = [(0.119262 : ℝ), -0.477047, -0.477047] := rfl
  have h4 : zmaxL [(0.119262 : ℝ), -0.477047, -0.477047] = 0.119262 := by
    simp only [zmaxL, max_self]
    norm_num
  have h5 : zminL [(0.119262 : ℝ), -0.477047, -0.477047] = -0.477047 := by
    simp only [zminL, min_self]
    norm_num
  rw [h1, h2, h3, h4, h5, zmax_slab_built, zmin_slab_built]
  nlinarith [dNi_big]

/-- C4 (amended): applying vacuum centering with padding `V` sets the
cell extent along the non-periodic axis to the `z`-extent of the atoms
plus `2 * V` (which can shrink the cell, as it does for H2O and H2), and
every atom then lies at least `V` away from the cell boundary on each
side of that axis. -/
theorem centering_gives_exact_vacuum_gap :
    ∀ (s : AtomicStructure) (V : ℝ),
      cellZ (centerVac V s) = zmaxL (zList s) - zminL (zList s) + 2 * V ∧
      ∀ a ∈ (centerVac V s).atoms, V ≤ a.pos.z ∧ a.pos.z ≤ cellZ (centerVac V s) - V := by
  intro s V
  refine ⟨rfl, ?_⟩
  intro a ha
  simp only [centerVac, List.mem_map] at ha
  obtain ⟨b, hb, rfl⟩ := ha
  have hmem : b.pos.z ∈ zList s := List.mem_map_of_mem (fun a => a.pos.z) hb
  have hlo := zminL_le_of_mem (zList s) b.pos.z hmem
  have hhi := le_zmaxL_of_mem (zList s) b.pos.z hmem
  constructor
  · show V ≤ b.pos.z + (V - zminL (zList s))
    linarith
  · show b.pos.z + (V - zminL (zList s)) ≤ zmaxL (zList s) - zminL (zList s) + 2 * V - V
    linarith

/-- C4 (witness): the amended statement instantiated at the O adsorbate
structure with `V = 2` and its single atom. -/
theorem centering_gives_exact_vacuum_gap_witness :
    cellZ (centerVac 2 o_molecule) =
      zmaxL (zList o_molecule) - zminL (zList o_molecule) + 2 * 2 ∧
    (2 ≤ ((centerVac 2 o_molecule).atoms.getD 0 defAtom).pos.z ∧
      ((centerVac 2 o_molecule).atoms.getD 0 defAtom).pos.z ≤
        cellZ (centerVac 2 o_molecule) - 2) := by
  have h := centering_gives_exact_vacuum_gap o_molecule 2
  refine ⟨h.1, h.2 ((centerVac 2 o_molecule).atoms.getD 0 defAtom) ?_⟩
  exact List.mem_cons_self _ _

/-- C5: the `FixAtoms` constraint with indices {0,1,2,3,5,6,7} on the
8-atom bare slab leaves exactly one atom free to move, the one at
index 4. -/
theorem fixatoms_leaves_atom4_free :
    slab.atoms.length = 8 ∧
    slab.constraint = [0, 1, 2, 3, 5, 6, 7] ∧
    (List.range 8).filter (fun i => i ∉ slab.constraint) = [4] := by
  refine ⟨rfl, rfl, by decide⟩

/-- C6: the bare slabs constructed by the different calculation blocks
from the same lattice constant and size are geometrically identical —
same atom list (hence same positions) and same cell — as constructed,
before any optimization. -/
theorem bare_slabs_identical :
    slab_built.atoms = slabNi.atoms ∧ slab_built.cell = slabNi.cell ∧
    slabNi.atoms = slabNi_O.atoms ∧ slabNi.cell = slabNi_O.cell ∧
    slabNi.atoms = slabNi_OOH.atoms ∧ slabNi.cell = slabNi_OOH.cell ∧
    slab_built = slabNi ∧ slabNi = slabNi_O ∧ slabNi = slabNi_OOH :=
  ⟨rfl, rfl, rfl, rfl, rfl, rfl, rfl, rfl, rfl⟩

/-- C7: for every optimizer oracle the script performs exactly six runs,
in the fixed order bare slab, +OH, +O, +OOH, H2O, H2, each writing a
distinct fixed trajectory filename; the inputs of all six runs are
independent of the oracle (no block consumes a prior block's optimization
output — the H2O and H2 blocks reuse only the slab's cell, which
relaxation leaves unchanged). -/
theorem script_six_runs_fixed_order :
    ∀ opt : AtomicStructure → List Vec3,
      scriptTrace opt =
        [⟨"Ni.traj", slab⟩, ⟨"OH_Ni.traj", slabOH⟩, ⟨"O_Ni.traj", slabO⟩,
         ⟨"OOH_Ni.traj", slabOOH⟩, ⟨"H2O.traj", h2o_molecule⟩, ⟨"H2.traj", h2_molecule⟩] ∧
      (scriptTrace opt).map RunCall.traj =
        ["Ni.traj", "OH_Ni.traj", "O_Ni.traj", "OOH_Ni.traj", "H2O.traj", "H2.traj"] ∧
      ((scriptTrace opt).map RunCall.traj).Nodup ∧
      (scriptTrace opt).length = 6 := by
  intro opt
  refine ⟨rfl, rfl, ?_, rfl⟩
  show (["Ni.traj", "OH_Ni.traj", "O_Ni.traj", "OOH_Ni.traj", "H2O.traj", "H2.traj"] :
      List String).Nodup
  decide

/-- C8: the script has no error handling: if the optimizer fails on run
`i` (after the earlier runs succeeded), the error propagates unchanged as
the script's outcome, the failing run is the last one started (no later
block runs, no retry, no partial-result handling). -/
theorem errors_propagate_uncaught
    (opt : AtomicStructure → Except String (List Vec3 × ℝ)) (i : ℕ) (e : String)
    (hi : i < scriptInputs.length)
    (hok : ∀ j, j < i → ∃ v, opt (scriptInputs.getD j pairDefault).2 = Except.ok v)
    (herr : opt (scriptInputs.getD i pairDefault).2 = Except.error e) :
    runSeq opt scriptInputs = ((scriptInputs.map Prod.fst).take (i + 1), Except.error e) :=
  runSeq_stops_at_first_error opt e scriptInputs i hi hok herr

/-- C8 (witness): with an oracle that diverges exactly on the slab+OH
run, the script starts only the first two runs and aborts with that
error. -/
theorem errors_propagate_uncaught_witness :
    runSeq failingOracle scriptInputs =
      (["Ni.traj", "OH_Ni.traj"], Except.error "optimizer diverged") := by
  have h := errors_propagate_uncaught failingOracle 1 "optimizer diverged"
    (by decide)
    (fun j hj => by
      match j, hj with
      | 0, _ => exact ⟨([], 0), rfl⟩)
    rfl
  rw [h]
  rfl

/-- C9: all four slab runs carry exactly the constraint {0,1,2,3,5,6,7};
every fixed index is below 8, so adsorbate atoms (indices 8 and above)
are never fixed; the isolated H2O and H2 molecules carry no constraint at
all. -/
theorem constraints_only_slab_atoms :
    slab.constraint = [0, 1, 2, 3, 5, 6, 7] ∧
    slabOH.constraint = [0, 1, 2, 3, 5, 6, 7] ∧
    slabO.constraint = [0, 1, 2, 3, 5, 6, 7] ∧
    slabOOH.constraint = [0, 1, 2, 3, 5, 6, 7] ∧
    (slabOH.constraint.all (fun i => i < 8)) = true ∧
    h2o_molecule.constraint = [] ∧
    h2_molecule.constraint = [] :=
  ⟨rfl, rfl, rfl, rfl, by decide, rfl, rfl⟩

/-- C10: the OOH block reassigns `e_slabO` to the slab+OOH energy, so
after it no variable holds the O intermediate's energy; still, the
"O on Ni(111) energy" print reports the slab+O energy and the
"OOH on Ni(111) energy" print reports the slab+OOH energy (each printed
line carries its own structure's energy). -/
theorem energy_prints_match_structures :
    (execStmts energyStmts []).2 =
      [("Ni(111) energy: ", some EnergyTag.slabE),
       ("OH on Ni(111) energy: ", some EnergyTag.slabOHE),
       ("O on Ni(111) energy: ", some EnergyTag.slabOE),
       ("OOH on Ni(111) energy: ", some EnergyTag.slabOOHE),
       ("H2O energy: ", some EnergyTag.h2oE),
       ("H2 energy: ", some EnergyTag.h2E)] ∧
    getVar (execStmts energyStmts []).1 "e_slabO" = some EnergyTag.slabOOHE ∧
    ((execStmts energyStmts []).1.all (fun p => p.2 ≠ EnergyTag.slabOE)) = true := by
  refine ⟨by decide, by decide, by decide⟩

end DFT
